import Mathlib

/-!
Verification of the `monorepo-with-coverage` repository against its
natural-language specification.

The repository consists of a root Vitest configuration, a sub-project
Vitest configuration, and a sample unit test of a two-argument addition
function `sum`. We embed the two configuration records and the test
fixtures shallowly and settle the spec's claims about them.
-/

/-- A plugin entry in the `plugins` list of a configuration.
The sub-project configuration contains exactly the Vue compiler plugin
(`vue()` from `@vitejs/plugin-vue`). -/
inductive Plugin where
  | vue
deriving DecidableEq, Repr

/-- The `coverage` record of a Vitest `test` configuration. Every key of
the record is optional in the configuration surface, so an absent key is
embedded as `none`. -/
structure CoverageConfig where
  provider : Option String := none
  reporter : Option (List String) := none
  all : Option Bool := none
  reportsDirectory : Option String := none
deriving DecidableEq, Repr

/-- The `test` record of a Vitest configuration. Every key is optional;
an absent key is embedded as `none`. -/
structure TestConfig where
  projects : Option (List String) := none
  reporters : Option (List String) := none
  environment : Option String := none
  globals : Option Bool := none
  includeSource : Option (List String) := none
  coverage : Option CoverageConfig := none
deriving DecidableEq, Repr

/-- A top-level Vitest/Vite configuration record. -/
structure ViteConfig where
  plugins : Option (List Plugin) := none
  test : Option TestConfig := none
deriving DecidableEq, Repr

/-- `defineConfig` from `vitest/config`: an identity helper that returns
the configuration object it is given. -/
def defineConfig (c : ViteConfig) : ViteConfig := c

/-- The `coverage` record of the root configuration
(`vitest.config.ts`, root of the monorepo):
`provider: 'istanbul', reporter: ['text', 'lcov'], all: true,
reportsDirectory: './test-results'`. -/
def rootCoverage : CoverageConfig :=
  { provider := some "istanbul"
    reporter := some ["text", "lcov"]
    all := some true
    reportsDirectory := some "./test-results" }

/-- The `test` record of the root configuration:
`projects: ['./my-vue-app'], reporters: ['default'], coverage: …`. -/
def rootTest : TestConfig :=
  { projects := some ["./my-vue-app"]
    reporters := some ["default"]
    coverage := some rootCoverage }

/-- The root configuration: `export default defineConfig({ test: … })`. -/
def rootConfig : ViteConfig :=
  defineConfig { test := some rootTest }

/-- The `coverage` record of the sub-project configuration: it declares
only `reportsDirectory: '../test-results/ui'` (the source comments
"do NOT redeclare provider here"). -/
def subCoverage : CoverageConfig :=
  { reportsDirectory := some "../test-results/ui" }

/-- The `test` record of the sub-project configuration:
`environment: 'jsdom', globals: true,
includeSource: ['src/**/*.\x7bjs,ts,vue\x7d'], coverage: …`. -/
def subTest : TestConfig :=
  { environment := some "jsdom"
    globals := some true
    includeSource := some ["src/**/*.\x7bjs,ts,vue\x7d"]
    coverage := some subCoverage }

/-- The sub-project configuration:
`export default defineConfig({ plugins: [vue()], test: … })`. -/
def subConfig : ViteConfig :=
  defineConfig { plugins := some [Plugin.vue], test := some subTest }

/-- Loading (evaluating) the root configuration module. The module takes
no inputs and reads no external state; evaluation builds the exported
record. -/
def loadRootConfig : Unit → ViteConfig := fun _ => rootConfig

/-- Loading (evaluating) the sub-project configuration module. -/
def loadSubConfig : Unit → ViteConfig := fun _ => subConfig

/-- Modelled from the spec: the two-argument addition function `sum`,
imported by the sample test from `./sum` but absent from the given
source files. The spec says it is "a two-argument addition function"
that "returns the arithmetic sum". -/
def sum (a b : Int) : Int := a + b

/-- The fixture triples of the sample test (`sum.test`), each a pair of
inputs and the expected sum asserted by `expect(sum(a, b)).toBe(e)`:
(1, 2) → 3, (-1, -1) → -2, (0, 0) → 0. -/
def fixtures : List (Int × Int × Int) :=
  [(1, 2, 3), (-1, -1, -2), (0, 0, 0)]

/-- Modelled from the spec: the `toBe` assertion of the external test
framework, absent from the given source files. Per the spec, a test
failure is reported "when an assertion does not hold (e.g., computed
sum ≠ expected sum)": `toBe` passes exactly when the computed value
equals the expected value. -/
def toBe (actual expected : Int) : Bool := actual == expected

/-- Whether the test runner reports a failure for a fixture triple:
the assertion `expect(sum(a, b)).toBe(e)` did not hold. -/
def failureReported (f : Int × Int × Int) : Bool :=
  ! toBe (sum f.1 f.2.1) f.2.2

/-- The state of the embedded system while the suite runs: the
configuration read at startup and the assertion outcomes so far. -/
structure RunnerState where
  config : ViteConfig
  results : List Bool
deriving DecidableEq, Repr

/-- One operation of the embedded system: executing one fixture of the
sample test and recording whether its assertion passed. The
configuration is read, never written. -/
def runFixture (s : RunnerState) (f : Int × Int × Int) : RunnerState :=
  { s with results := s.results ++ [toBe (sum f.1 f.2.1) f.2.2] }

/-- Executing the whole sample suite from a starting state. -/
def runSuite (s : RunnerState) : RunnerState :=
  fixtures.foldl runFixture s

/-- The largest integer JavaScript number arithmetic represents exactly
(`Number.MAX_SAFE_INTEGER = 2^53 - 1`). -/
def maxSafeInteger : Int := 2 ^ 53 - 1

/-- Modelled from the spec: which files the sub-project's
`includeSource: ['src/**/*.\x7bjs,ts,vue\x7d']` pattern makes candidates
for in-source instrumentation. The pattern-matching itself is the
external runner's; per the glob's meaning, a candidate path lies under
`src/` and carries one of the extensions `.js`, `.ts`, `.vue`. -/
def includeSourceCandidate (path : String) : Bool :=
  "src/".data.isPrefixOf path.data &&
    (".js".data.isSuffixOf path.data || ".ts".data.isSuffixOf path.data ||
      ".vue".data.isSuffixOf path.data)

/-- Applying a read of the root configuration to the runner state: the
applied settings become the values of the exported record. -/
def readRootConfig (s : RunnerState) : RunnerState :=
  { s with config := loadRootConfig () }

/-- Applying a read of the sub-project configuration to the runner
state. -/
def readSubConfig (s : RunnerState) : RunnerState :=
  { s with config := loadSubConfig () }

/-- Claim C1: for every fixture pair in the sample test, `sum` returns
exactly the stated sum, i.e. `sum` agrees with integer addition on every
fixture input. -/
theorem C1_sum_agrees_on_fixtures :
    ∀ f ∈ fixtures, sum f.1 f.2.1 = f.2.2 ∧ sum f.1 f.2.1 = f.1 + f.2.1 := by
  decide

/-- Witness for C1 at the fixture (1, 2, 3). -/
theorem C1_sum_agrees_on_fixtures_witness :
    (1, 2, 3) ∈ fixtures ∧ sum 1 2 = 3 ∧ sum 1 2 = 1 + 2 :=
  ⟨by decide, C1_sum_agrees_on_fixtures (1, 2, 3) (by decide)⟩

/-- Claim C2: the root configuration record contains exactly the
recognized options and values: `projects = ['./my-vue-app']`,
`reporters = ['default']`, and
`coverage = \x7b provider: 'istanbul', reporter: ['text', 'lcov'],
all: true, reportsDirectory: './test-results' \x7d`; in particular the
include-untested flag `coverage.all` is the boolean `true`, and no
other option is declared. -/
theorem C2_root_config_values :
    rootConfig.test = some rootTest ∧
    rootConfig.plugins = none ∧
    rootTest.projects = some ["./my-vue-app"] ∧
    rootTest.reporters = some ["default"] ∧
    rootTest.environment = none ∧
    rootTest.globals = none ∧
    rootTest.includeSource = none ∧
    rootTest.coverage = some rootCoverage ∧
    rootCoverage.provider = some "istanbul" ∧
    rootCoverage.reporter = some ["text", "lcov"] ∧
    rootCoverage.all = some true ∧
    rootCoverage.reportsDirectory = some "./test-results" :=
  ⟨rfl, rfl, rfl, rfl, rfl, rfl, rfl, rfl, rfl, rfl, rfl, rfl⟩

/-- Claim C3: configuration load is idempotent — reading the same
configuration values a second time yields applied settings equal to
those of the first read, for both exported configurations. -/
theorem C3_config_load_idempotent (s : RunnerState) :
    readRootConfig (readRootConfig s) = readRootConfig s ∧
    readSubConfig (readSubConfig s) = readSubConfig s :=
  ⟨rfl, rfl⟩

/-- Claim C4: for every fixture triple of the sample test, a failure is
reported if and only if the computed sum differs from the expected
value; when they agree the assertion succeeds and no failure is
reported. -/
theorem C4_failure_iff_mismatch :
    ∀ f ∈ fixtures, (failureReported f = true ↔ sum f.1 f.2.1 ≠ f.2.2) := by
  decide

/-- Witness for C4 at the fixture (0, 0, 0). -/
theorem C4_failure_iff_mismatch_witness :
    (0, 0, 0) ∈ fixtures ∧ (failureReported (0, 0, 0) = true ↔ sum 0 0 ≠ 0) :=
  ⟨by decide, C4_failure_iff_mismatch (0, 0, 0) (by decide)⟩

/-- Claim C5: the sub-project test-runner configuration declares the
browser-DOM test environment `jsdom`, the Vue compiler plugin in
`plugins`, and the coverage output path `../test-results/ui`. -/
theorem C5_sub_config_declarations :
    subConfig.test = some subTest ∧
    subTest.environment = some "jsdom" ∧
    subConfig.plugins = some [Plugin.vue] ∧
    subTest.coverage = some subCoverage ∧
    subCoverage.reportsDirectory = some "../test-results/ui" :=
  ⟨rfl, rfl, rfl, rfl, rfl⟩

/-- Claim C6: the configuration read at startup is never mutated: every
operation of the embedded system (running one fixture, or the whole
suite) leaves the configuration component of the state unchanged. -/
theorem C6_config_never_mutated (s : RunnerState) (f : Int × Int × Int) :
    (runFixture s f).config = s.config ∧ (runSuite s).config = s.config :=
  ⟨rfl, rfl⟩

/-- Claim C7: the sample test exercises no integer-overflow edge case:
every fixture input and expected value, and the computed sum, lie
within the exact (safe) integer range, and `sum` coincides with exact
integer addition on every fixture. -/
theorem C7_no_overflow_on_fixtures :
    ∀ f ∈ fixtures,
      |f.1| ≤ maxSafeInteger ∧ |f.2.1| ≤ maxSafeInteger ∧
      |f.2.2| ≤ maxSafeInteger ∧ |sum f.1 f.2.1| ≤ maxSafeInteger ∧
      sum f.1 f.2.1 = f.1 + f.2.1 := by
  decide

/-- Witness for C7 at the fixture (-1, -1, -2). -/
theorem C7_no_overflow_on_fixtures_witness :
    (-1, -1, -2) ∈ fixtures ∧
    (|(-1 : Int)| ≤ maxSafeInteger ∧ |(-1 : Int)| ≤ maxSafeInteger ∧
      |(-2 : Int)| ≤ maxSafeInteger ∧ |sum (-1) (-1)| ≤ maxSafeInteger ∧
      sum (-1) (-1) = -1 + -1) :=
  ⟨by decide, C7_no_overflow_on_fixtures (-1, -1, -2) (by decide)⟩

/-- Claim C8: the sub-project coverage record declares only the output
directory and no provider; the coverage provider is declared solely by
the root configuration as `istanbul`. -/
theorem C8_provider_only_in_root :
    subCoverage = { reportsDirectory := some "../test-results/ui" } ∧
    subCoverage.provider = none ∧
    subCoverage.reporter = none ∧
    subCoverage.all = none ∧
    subTest.coverage = some subCoverage ∧
    rootCoverage.provider = some "istanbul" :=
  ⟨rfl, rfl, rfl, rfl, rfl, rfl⟩

/-- Claim C9: evaluation of both exported configuration modules is
deterministic — they take no inputs and read no external state, so any
two evaluations produce equal records. -/
theorem C9_config_evaluation_deterministic (u v : Unit) :
    loadRootConfig u = loadRootConfig v ∧ loadSubConfig u = loadSubConfig v :=
  ⟨rfl, rfl⟩

/-- Claim C10: the sub-project test configuration additionally sets
`globals` to `true` and restricts in-source instrumentation candidates
via `includeSource` to the pattern `src/**/*.\x7bjs,ts,vue\x7d`: every
candidate path lies under `src/` and carries one of the extensions
`.js`, `.ts`, `.vue`. -/
theorem C10_sub_globals_and_includeSource :
    subTest.globals = some true ∧
    subTest.includeSource = some ["src/**/*.\x7bjs,ts,vue\x7d"] ∧
    ∀ p : String, includeSourceCandidate p = true →
      "src/".data.isPrefixOf p.data = true ∧
      (".js".data.isSuffixOf p.data = true ∨ ".ts".data.isSuffixOf p.data = true ∨
        ".vue".data.isSuffixOf p.data = true) := by
  refine ⟨rfl, rfl, fun p h => ?_⟩
  simp only [includeSourceCandidate, Bool.and_eq_true, Bool.or_eq_true] at h
  exact ⟨h.1, or_assoc.mp h.2⟩

/-- Witness for C10 at the concrete path `src/main.ts`. -/
theorem C10_sub_globals_and_includeSource_witness :
    includeSourceCandidate "src/main.ts" = true ∧
    ("src/".data.isPrefixOf "src/main.ts".data = true ∧
      (".js".data.isSuffixOf "src/main.ts".data = true ∨
        ".ts".data.isSuffixOf "src/main.ts".data = true ∨
        ".vue".data.isSuffixOf "src/main.ts".data = true)) :=
  ⟨by decide, C10_sub_globals_and_includeSource.2.2 "src/main.ts" (by decide)⟩
